import Mathlib

/-!
# Verification of the result-normalization and status-tracking workflow

Shallow embedding of `submissions/agno-hack/api_server.py` (the REST form of
the website-testing agent; `website_testing_agent.py` contains the same
`ResultsAnalyzer` logic minus two details noted below).  The embedding covers:

* `BrowserExecutor.save_execution_results` (api_server.py lines 282-486): the
  result normalizer, turning a raw, weakly-typed browser history into a
  canonical result document;
* `BrowserExecutor.execute_task` (lines 488-651): the task orchestrator and
  its status state machine;
* `ResultsAnalyzer.analyze_results` (lines 717-795): the rule-based
  compliance analyzer;
* the `execute_test`, `get_task_results` and `analyze_results` HTTP handlers
  (lines 862-995).

Modelling conventions: Python strings are Lean `String`s, truthiness of a
string is non-emptiness, `str()` of a string is the string itself.  A raw
history is a list of entries; an entry is either a tuple of (stringified)
items, an object carrying named string attributes, or an entry whose
inspection raises an exception (in Python, e.g. a property raising a
non-`AttributeError`; `hasattr` propagates those).  Wall-clock reads are
abstracted as explicit string parameters (`ts` for the `strftime` file-name
timestamp, `now` for the `isoformat` default timestamp).  File-system writes
are abstracted by an `Option String` outcome (`none` = success, `some e` =
the raised exception's message).  Screenshot payloads embedded in history
entries are file-system side effects whose per-attribute failures are caught
locally in the source; the modelled entry domain carries no screenshot
payloads, so the normalizer's `screenshots` lists are empty here (none of the
verified properties concern them; the orchestrator's manually captured
screenshots are modelled explicitly).
-/

/-- Python truthiness of a string: non-empty is truthy. -/
def pyTruthy (s : String) : Bool := !s.isEmpty

/-- Python `str.lower()` restricted to the ASCII domain used here (character
by character, as `str.lower` maps each character). -/
def pyLower (s : String) : String := String.mk (s.data.map Char.toLower)

/-- Auxiliary for substring containment: does `needle` occur in the list? -/
def strContainsAux (needle : List Char) : List Char → Bool
  | [] => needle.isEmpty
  | c :: rest => needle.isPrefixOf (c :: rest) || strContainsAux needle rest

/-- Python's `needle in hay` on strings: substring containment (the empty
needle is contained in every string). -/
def strContains (hay needle : String) : Bool := strContainsAux needle.toList hay.toList

/-- The empty string is a substring of every string, as in Python. -/
theorem strContains_empty_needle (hay : String) : strContains hay "" = true := by
  unfold strContains
  cases hay.toList with
  | nil => rfl
  | cons c rest => rfl

/-- One raw entry of the browser-use execution history, as distinguished by
`save_execution_results` (api_server.py lines 339, 376): a tuple (whose items
are modelled already stringified), an object with named attributes (string
valued), or an entry whose mere inspection (`dir`/attribute access) raises an
exception carrying the given message. -/
inductive RawStep
  | tupleStep (items : List String)
  | objStep (fields : List (String × String))
  | raisingStep (msg : String)
deriving Repr, DecidableEq

/-- Does inspecting this entry raise? -/
def RawStep.raises : RawStep → Bool
  | RawStep.raisingStep _ => true
  | _ => false

/-- Candidate attribute names for the step's action (api_server.py line 378). -/
def action_attrs : List String := ["model_output", "action", "input", "query", "tool_calls"]

/-- Candidate attribute names for the step's result (line 379). -/
def result_attrs : List String := ["result", "output", "response", "content"]

/-- Candidate attribute names for the step's timestamp (line 380). -/
def timestamp_attrs : List String := ["timestamp", "time", "created_at"]

/-- Probe an ordered list of attribute names on an object's fields: the first
attribute that is present with a truthy value wins; a present-but-falsy value
does not stop the probe (the `break` in lines 384-390 is only reached when the
value is truthy). -/
def probeAttrs (fields : List (String × String)) : List String → Option String
  | [] => none
  | a :: rest =>
    match fields.lookup a with
    | some v => if pyTruthy v then some v else probeAttrs fields rest
    | none => probeAttrs fields rest

/-- The normalized record of one execution step (the `step_info` dict of
api_server.py lines 328-336; the debug-only fields `raw_step_type` and
`step_attributes` and the screenshot references are not modelled). -/
structure StepInfo where
  step_number : Nat
  action : String
  result : String
  timestamp : String
deriving Repr, DecidableEq

/-- Extract one step's record, or the message of the exception its inspection
raised (api_server.py lines 323-463, one loop iteration, minus the
per-attribute screenshot handling whose exceptions are caught locally). -/
def extractStep (now : String) (i : Nat) : RawStep → Except String StepInfo
  | RawStep.tupleStep items =>
    match items with
    | a :: b :: _ =>
      Except.ok { step_number := i + 1,
                  action := if pyTruthy a then a else "N/A",
                  result := if pyTruthy b then b else "N/A",
                  timestamp := now }
    | _ =>
      Except.ok { step_number := i + 1, action := "N/A", result := "N/A", timestamp := now }
  | RawStep.objStep fields =>
    Except.ok { step_number := i + 1,
                action := (probeAttrs fields action_attrs).getD ("N/A"),
                result := (probeAttrs fields result_attrs).getD ("N/A"),
                timestamp := (probeAttrs fields timestamp_attrs).getD now }
  | RawStep.raisingStep m => Except.error m

/-- The extraction loop (api_server.py lines 323-463): steps are appended one
by one; the first raised exception aborts the loop (it is caught by the
enclosing `try` at line 470), keeping the steps appended so far and recording
the exception's message. -/
def processSteps (now : String) : Nat → List RawStep → List StepInfo × Option String
  | _, [] => ([], none)
  | i, s :: rest =>
    match extractStep now i s with
    | Except.error m => ([], some m)
    | Except.ok info =>
      let p := processSteps now (i + 1) rest
      (info :: p.1, p.2)

/-- The normalized result document (the `results` dict of api_server.py lines
289-300 restricted to the fields the verified properties read; `screenshots`
and `screenshot_urls` stay empty under the modelled entry domain and receive
the orchestrator's manual captures). -/
structure NormResults where
  execution_steps : List StepInfo
  screenshots : List String
  screenshot_urls : List String
  success : Bool
  error : Option String
  full_conversation : List (Nat × String × String)
  log_file : Option String
deriving Repr, DecidableEq

/-- `BrowserExecutor.save_execution_results` (api_server.py lines 282-486).
`history` is the raw history (already coerced to a list, line 309), `tid` the
task id, `ts` the `strftime` timestamp used in the log-file name, `now` the
wall-clock `isoformat` fallback timestamp, and `writeErr` the outcome of
writing the result file (line 478): `none` = written, `some e` = the write
raised with message `e`.  Mirrors the source exactly: `success` is set `True`
only when the history list is non-empty and the whole loop ran without an
exception (line 465); a caught loop exception is recorded in `error` (line
471); a failed file write overwrites `error` with `"Error saving results: "`
plus the message (line 483) while leaving `success` untouched; `log_file` is
recorded only when the write succeeded (line 480). -/
def save_execution_results (history : List RawStep) (tid ts now : String)
    (writeErr : Option String) : NormResults :=
  let p := processSteps now 0 history
  let steps := p.1
  let procErr := p.2
  let success := !history.isEmpty && procErr.isNone
  let conv := (steps.filter (fun s => s.action ≠ "N/A")).map
    (fun s => (s.step_number, s.action, s.timestamp))
  match writeErr with
  | some e =>
    { execution_steps := steps, screenshots := [], screenshot_urls := [],
      success := success, error := some ("Error saving results: " ++ e),
      full_conversation := conv, log_file := none }
  | none =>
    { execution_steps := steps, screenshots := [], screenshot_urls := [],
      success := success, error := procErr,
      full_conversation := conv,
      log_file := some ("browser_execution_" ++ tid ++ "_" ++ ts ++ ".json") }


/-- Task lifecycle status values stored in `task_storage` (api_server.py
line 73). -/
inductive Status
  | pending
  | running
  | completed
  | failed
deriving Repr, DecidableEq

/-- Rank of a status in the lifecycle order `pending -> running ->
{completed, failed}`. -/
def statusRank : Status → Nat
  | Status.pending => 0
  | Status.running => 1
  | Status.completed => 2
  | Status.failed => 2

/-- Is the status terminal? -/
def Status.isTerminal : Status → Bool
  | Status.completed => true
  | Status.failed => true
  | _ => false

/-- Outcomes of the external calls made by one orchestration run of
`BrowserExecutor.execute_task` (api_server.py lines 488-651), abstracting the
browser, the LLM and the file system: `createErr` = message raised inside
`create_browser_agent` (before its wrapping at line 280); `runErr` = message
raised by `browser_agent.run()`; `history` = the history it returned
otherwise; `writeErr` = outcome of the result-file write inside
`save_execution_results`; `closeErr` = message raised by
`browser_agent.browser.close()`; `initialShot`/`finalShot` = the (path, URL)
pairs returned by `capture_manual_screenshot`, which never raises and returns
`None, None` on failure (lines 653-708). -/
structure ExecEnv where
  createErr : Option String
  runErr : Option String
  history : List RawStep
  writeErr : Option String
  closeErr : Option String
  initialShot : Option (String × String)
  finalShot : Option (String × String)
  tid : String
  ts : String
  now : String
deriving Repr, DecidableEq

/-- What one orchestration run wrote into its task record: the sequence of
`task_storage[task_id]["status"]` assignments in order, the final `error`
field, how many times `browser_agent.browser.close()` was attempted, and the
stored results document. -/
structure TaskRun where
  statusWrites : List Status
  error : Option String
  closeAttempts : Nat
  results : NormResults
deriving Repr, DecidableEq

/-- The error-path results document built by the `except` block of
`execute_task` (api_server.py lines 608-620; log-file path fields are not
modelled). -/
def errorResult (msg : String) : NormResults :=
  { execution_steps := [], screenshots := [], screenshot_urls := [],
    success := false, error := some msg, full_conversation := [],
    log_file := none }

/-- Append the manually captured initial/final screenshots to the normalized
results (api_server.py lines 567-575). -/
def addManualShots (r : NormResults) (initialShot finalShot : Option (String × String)) :
    NormResults :=
  let r1 := match initialShot with
    | some pu => { r with screenshots := r.screenshots ++ [pu.1],
                          screenshot_urls := r.screenshot_urls ++ [pu.2] }
    | none => r
  match finalShot with
  | some pu => { r1 with screenshots := r1.screenshots ++ [pu.1],
                         screenshot_urls := r1.screenshot_urls ++ [pu.2] }
  | none => r1

/-- `BrowserExecutor.execute_task` (api_server.py lines 488-651).  The status
is set to `running` unconditionally at line 497, before the `try`.  On the
success path the browser is closed (line 581) before the `completed` write
(line 585).  The `except` block (lines 602-634) writes `failed` and the
exception's message, building a fresh error results document — it does NOT
attempt `browser.close()`; the `finally` block only restores stdout/stderr and
the logger.  `create_browser_agent` wraps any exception as
`"Error creating browser agent: ..."` (line 280). -/
def execute_task (env : ExecEnv) : TaskRun :=
  match env.createErr with
  | some e =>
    let msg := "Error creating browser agent: " ++ e
    { statusWrites := [Status.running, Status.failed], error := some msg,
      closeAttempts := 0, results := errorResult msg }
  | none =>
    match env.runErr with
    | some e =>
      { statusWrites := [Status.running, Status.failed], error := some e,
        closeAttempts := 0, results := errorResult e }
    | none =>
      let base := save_execution_results env.history env.tid env.ts env.now env.writeErr
      let withShots := addManualShots base env.initialShot env.finalShot
      match env.closeErr with
      | some e =>
        { statusWrites := [Status.running, Status.failed], error := some e,
          closeAttempts := 1, results := errorResult e }
      | none =>
        { statusWrites := [Status.running, Status.completed], error := none,
          closeAttempts := 1, results := withShots }

/-- The full status history of one task: the `execute_test` handler creates
the record with status `pending` (api_server.py line 874) and then the
background orchestration run performs its writes. -/
def taskStatusTrace (env : ExecEnv) : List Status :=
  Status.pending :: (execute_task env).statusWrites

namespace ResultsAnalyzer

/-- The slice of an execution-results document read by
`ResultsAnalyzer.analyze_results` (api_server.py lines 737-744, 752, 763).
The analyzer reads dict fields with defaults, so an absent `action` behaves as
`""` and is modelled that way. -/
structure ExecutionResults where
  success : Bool
  execution_steps : List StepInfo
  screenshots : List String
  error : Option String
  full_conversation : List (Nat × String × String)
deriving Repr, DecidableEq

/-- The slice of the original instructions read by the analyzer (lines 751,
755, 762): the target URL (absent behaves as `""`), the task description, and
the screenshot instructions as (step_description, filename) pairs. -/
structure OriginalInstructions where
  target_url : String
  task_description : String
  screenshot_instructions : List (String × String)
deriving Repr, DecidableEq

/-- The `screenshots_captured` compliance sub-dict (lines 765-769). -/
structure ScreenshotCompliance where
  required : Nat
  captured : Nat
  meets_requirements : Bool
deriving Repr, DecidableEq

/-- The fields of the review report relevant to the verified properties
(lines 732-784): the execution summary, the two compliance checks, and the
recommendation list. -/
structure ReviewReport where
  success : Bool
  steps_completed : Nat
  screenshots_captured_summary : Nat
  error : Option String
  target_url_accessed : Bool
  screenshot_compliance : ScreenshotCompliance
  recommendations : List String
deriving Repr, DecidableEq

/-- The per-step test of api_server.py lines 756-757: the action contains a
case-insensitive `"navigate"` or contains the target URL. -/
def stepMatches (target_url : String) (s : StepInfo) : Bool :=
  strContains (pyLower s.action) "navigate" || strContains s.action target_url

/-- `url_accessed` (lines 756-757): `any(...)` over the execution steps. -/
def urlAccessedCalc (steps : List StepInfo) (target_url : String) : Bool :=
  steps.any (stepMatches target_url)

/-- The screenshot compliance check (lines 765-769): `meets_requirements` is
`captured >= required` when screenshots were required, vacuously `True`
otherwise (the `website_testing_agent.py` variant at line 306 lacks the
vacuous case). -/
def screenshotComplianceCalc (required captured : Nat) (requiredNonempty : Bool) :
    ScreenshotCompliance :=
  { required := required, captured := captured,
    meets_requirements := if requiredNonempty then decide (captured ≥ required) else true }

/-- The recommendation list (lines 771-784), appended in source order: failed
execution; URL possibly not accessed; missing screenshots (only when some
were required); and, when both success and URL access hold, a positive
confirmation followed — only when at least one screenshot was captured — by a
captured-count summary (the `website_testing_agent.py` variant at lines
309-320 lacks the captured-count summary entirely). -/
def recommendationsCalc (success url_accessed : Bool) (target_url : String)
    (required captured : Nat) (requiredNonempty capturedNonempty : Bool) : List String :=
  (if !success then ["Task execution failed - check error logs"] else [])
  ++ (if !url_accessed then
        ["Target URL " ++ target_url ++ " may not have been properly accessed"] else [])
  ++ (if requiredNonempty && decide (captured < required) then
        ["Not all required screenshots were captured"] else [])
  ++ (if success && url_accessed then
        ["Task appears to have completed successfully"]
        ++ (if capturedNonempty then
              ["Successfully captured " ++ toString captured ++ " screenshots"] else [])
      else [])

/-- `ResultsAnalyzer.analyze_results` (api_server.py lines 717-795), as a
pure function of the execution results and original instructions (the
report-file write at lines 787-793 only adds bookkeeping fields and is not
modelled). -/
def analyze_results (er : ExecutionResults) (oi : OriginalInstructions) : ReviewReport :=
  let url_accessed := urlAccessedCalc er.execution_steps oi.target_url
  let required := oi.screenshot_instructions.length
  let captured := er.screenshots.length
  { success := er.success,
    steps_completed := er.execution_steps.length,
    screenshots_captured_summary := captured,
    error := er.error,
    target_url_accessed := url_accessed,
    screenshot_compliance :=
      screenshotComplianceCalc required captured (!oi.screenshot_instructions.isEmpty),
    recommendations :=
      recommendationsCalc er.success url_accessed oi.target_url required captured
        (!oi.screenshot_instructions.isEmpty) (!er.screenshots.isEmpty) }

end ResultsAnalyzer

namespace Api

/-- An HTTP-level response: either a payload or an `HTTPException` with a
status code and detail string. -/
inductive Resp (α : Type)
  | ok (a : α)
  | err (code : Nat) (detail : String)
deriving Repr, DecidableEq

/-- Did the request succeed? -/
def Resp.isOk {α : Type} : Resp α → Bool
  | Resp.ok _ => true
  | Resp.err _ _ => false

/-- Human-readable status string, as stored in `task_storage`. -/
def statusStr : Status → String
  | Status.pending => "pending"
  | Status.running => "running"
  | Status.completed => "completed"
  | Status.failed => "failed"

/-- The slice of a `task_storage` record read by the result/analysis
handlers. -/
structure TaskInfo where
  status : Status
  results : Option NormResults
  instructions : ResultsAnalyzer.OriginalInstructions
deriving Repr, DecidableEq

/-- `task_info.get("results", {})`: the empty-dict default (line 924). -/
def emptyResults : NormResults :=
  { execution_steps := [], screenshots := [], screenshot_urls := [],
    success := false, error := none, full_conversation := [], log_file := none }

/-- The `GET /task-results/{task_id}` handler `get_task_results`
(api_server.py lines 913-924): 404 for an unknown id; 400 while the status is
neither `completed` nor `failed`; otherwise the stored results. -/
def get_task_results (t : Option TaskInfo) : Resp NormResults :=
  match t with
  | none => Resp.err 404 "Task not found"
  | some ti =>
    if ti.status = Status.completed ∨ ti.status = Status.failed then
      Resp.ok (ti.results.getD emptyResults)
    else
      Resp.err 400 ("Task is still " ++ statusStr ti.status)

/-- The `POST /analyze-results/{task_id}` handler `analyze_results`
(api_server.py lines 926-995): 404 for an unknown id; 400 unless the status
is exactly `completed` (line 934); 500 when the API key is missing; then the
LLM analysis run, whose outcome is abstracted as `llm` (`Except.error` maps
to the 500 of line 995). -/
def analyze_results_endpoint (t : Option TaskInfo) (keyOk : Bool)
    (llm : Except String String) : Resp String :=
  match t with
  | none => Resp.err 404 "Task not found"
  | some ti =>
    if ti.status = Status.completed then
      if keyOk then
        match llm with
        | Except.error e => Resp.err 500 ("Analysis failed: " ++ e)
        | Except.ok content => Resp.ok content
      else
        Resp.err 500 "GEMINI_API_KEY not configured"
    else
      Resp.err 400 "Task must be completed before analysis"

end Api

/-! ## Helper lemmas about the normalizer -/

/-- Inspecting a non-raising entry always extracts successfully. -/
theorem extractStep_ok (now : String) (i : Nat) (s : RawStep) (hs : s.raises = false) :
    ∃ t, extractStep now i s = Except.ok t := by
  cases s with
  | tupleStep items =>
    cases items with
    | nil => exact ⟨_, rfl⟩
    | cons a rest =>
      cases rest with
      | nil => exact ⟨_, rfl⟩
      | cons b rest2 => exact ⟨_, rfl⟩
  | objStep fields => exact ⟨_, rfl⟩
  | raisingStep m => simp [RawStep.raises] at hs

/-- On a history with no raising entries, the extraction loop reports no
error, keeps every entry, and extracts position `j` (counting from the start
index `i`) from entry `j`. -/
theorem processSteps_noRaise (now : String) :
    ∀ (h : List RawStep) (i : Nat), (∀ s ∈ h, s.raises = false) →
      (processSteps now i h).2 = none ∧
      (processSteps now i h).1.length = h.length ∧
      ∀ j : Nat, ((processSteps now i h).1[j]?).map Except.ok
          = (h[j]?).map (extractStep now (i + j))
  | [], _, _ => by
      refine ⟨rfl, rfl, fun j => ?_⟩
      simp [processSteps]
  | s :: rest, i, hnr => by
      obtain ⟨t, ht⟩ := extractStep_ok now i s (hnr s (List.mem_cons_self s rest))
      obtain ⟨ih1, ih2, ih3⟩ :=
        processSteps_noRaise now rest (i + 1) (fun x hx => hnr x (List.mem_cons_of_mem s hx))
      refine ⟨?_, ?_, ?_⟩
      · simp only [processSteps, ht]
        exact ih1
      · simp only [processSteps, ht, List.length_cons]
        exact congrArg (fun n => n + 1) ih2
      · intro j
        cases j with
        | zero =>
          simp [processSteps, ht]
        | succ k =>
          simp only [processSteps, ht, List.getElem?_cons_succ]
          have harith : i + (k + 1) = (i + 1) + k := by omega
          rw [harith]
          exact ih3 k

/-- When the first raising entry sits after a non-raising segment `pre`, the
loop keeps exactly the records of `pre` and reports that entry's message. -/
theorem processSteps_raising (now m : String) :
    ∀ (pre : List RawStep) (post : List RawStep) (i : Nat),
      (∀ s ∈ pre, s.raises = false) →
      (processSteps now i (pre ++ RawStep.raisingStep m :: post)).2 = some m ∧
      (processSteps now i (pre ++ RawStep.raisingStep m :: post)).1.length = pre.length ∧
      ∀ j : Nat, ((processSteps now i (pre ++ RawStep.raisingStep m :: post)).1[j]?).map Except.ok
          = (pre[j]?).map (extractStep now (i + j))
  | [], post, i, _ => by
      refine ⟨rfl, rfl, fun j => ?_⟩
      simp [processSteps, extractStep]
  | s :: pre, post, i, hnr => by
      obtain ⟨t, ht⟩ := extractStep_ok now i s (hnr s (List.mem_cons_self s pre))
      obtain ⟨ih1, ih2, ih3⟩ :=
        processSteps_raising now m pre post (i + 1) (fun x hx => hnr x (List.mem_cons_of_mem s hx))
      refine ⟨?_, ?_, ?_⟩
      · simp only [List.cons_append, processSteps, ht]
        exact ih1
      · simp only [List.cons_append, processSteps, ht, List.length_cons]
        exact congrArg (fun n => n + 1) ih2
      · intro j
        cases j with
        | zero =>
          simp [List.cons_append, processSteps, ht]
        | succ k =>
          simp only [List.cons_append, processSteps, ht, List.getElem?_cons_succ]
          have harith : i + (k + 1) = (i + 1) + k := by omega
          rw [harith]
          exact ih3 k

/-- Projection: the extracted steps do not depend on the write outcome. -/
theorem save_steps_eq (h : List RawStep) (tid ts now : String) (w : Option String) :
    (save_execution_results h tid ts now w).execution_steps = (processSteps now 0 h).1 := by
  cases w <;> rfl

/-- Projection: `success` is exactly "non-empty history and no loop error",
independent of the write outcome. -/
theorem save_success_eq (h : List RawStep) (tid ts now : String) (w : Option String) :
    (save_execution_results h tid ts now w).success
      = (!h.isEmpty && (processSteps now 0 h).2.isNone) := by
  cases w <;> rfl

/-- Projection: with a successful write, `error` is the loop's error. -/
theorem save_error_write_ok (h : List RawStep) (tid ts now : String) :
    (save_execution_results h tid ts now none).error = (processSteps now 0 h).2 := rfl

/-- Projection: a failed write overwrites `error` with the write message. -/
theorem save_error_write_fail (h : List RawStep) (tid ts now e : String) :
    (save_execution_results h tid ts now (some e)).error
      = some ("Error saving results: " ++ e) := rfl


/-! ## Concrete inputs used by counterexamples and witnesses -/

/-- A one-entry history with a recognizable action attribute. -/
def histOne : List RawStep := [RawStep.objStep [("action", "go")]]

/-- A history whose single entry is a tuple with a falsy element 0. -/
def tupleFalsy : List RawStep := [RawStep.tupleStep ["", "ok"]]

/-- A history whose middle entry raises on inspection. -/
def histPartial : List RawStep :=
  [RawStep.objStep [("action", "a1")], RawStep.raisingStep ("boom"),
   RawStep.objStep [("action", "a3")]]

/-! ## Claim C1 -/

/-- Claim C1 as stated is false on the code, in both directions: a non-empty
history whose result-file write fails yields `success = true` together with a
non-null `error` (the write-failure message), and an empty history with a
successful write yields `success = false` together with `error = null`. -/
theorem C1_counterexample :
    ((save_execution_results histOne "t" "ts" "now" (some ("disk full"))).success = true
      ∧ (save_execution_results histOne "t" "ts" "now" (some ("disk full"))).error
          = some ("Error saving results: disk full"))
    ∧ ((save_execution_results [] "t" "ts" "now" none).success = false
      ∧ (save_execution_results [] "t" "ts" "now" none).error = none) := by
  decide

/-- Claim C1 as amended: when the result-file write succeeds, `success =
true` does imply `error = null`; when the write fails, `error` is always the
non-empty write-failure message (whatever `success` is); and `success =
false` can coexist with `error = null` (empty history, successful write). -/
theorem C1_success_error_discipline (h : List RawStep) (tid ts now e : String) :
    ((save_execution_results h tid ts now none).success = true →
        (save_execution_results h tid ts now none).error = none)
    ∧ ((save_execution_results h tid ts now (some e)).error
          = some ("Error saving results: " ++ e)
        ∧ ("Error saving results: " ++ e) ≠ "")
    ∧ ((save_execution_results [] tid ts now none).success = false
        ∧ (save_execution_results [] tid ts now none).error = none) := by
  refine ⟨?_, ⟨save_error_write_fail h tid ts now e, ?_⟩, rfl, rfl⟩
  · intro hs
    rw [save_success_eq, Bool.and_eq_true] at hs
    rw [save_error_write_ok]
    exact Option.isNone_iff_eq_none.mp hs.2
  · intro hcontra
    have hlen := congrArg String.length hcontra
    rw [String.length_append] at hlen
    have h23 : ("Error saving results: " : String).length = 22 := by decide
    have h0 : ("" : String).length = 0 := by decide
    rw [h23, h0] at hlen
    omega

/-- Witness for C1: at a concrete non-empty history with a successful write,
`success = true` and the theorem yields `error = none`. -/
theorem C1_success_error_discipline_witness :
    (save_execution_results histOne "t" "ts" "now" none).error = none :=
  (C1_success_error_discipline histOne "t" "ts" "now" "e").1 (by decide)

/-! ## Claim C3 -/

/-- Claim C3's second half is false on the code: `success` is exactly
determined by the emptiness of the history (absent a loop exception).  The
empty history with a successful write and no error still yields `success =
false`, while the identical configuration with one entry yields `success =
true` — so success is not determined independently of emptiness. -/
theorem C3_counterexample :
    (save_execution_results [] "t" "ts" "now" none).execution_steps = []
    ∧ (save_execution_results [] "t" "ts" "now" none).error = none
    ∧ (save_execution_results [] "t" "ts" "now" none).success = false
    ∧ (save_execution_results histOne "t" "ts" "now" none).success = true := by
  decide

/-- Claim C3 as amended: an empty or absent raw history yields zero steps and
always `success = false`; in general `success = true` exactly when the
history is non-empty and the extraction loop raised no exception. -/
theorem C3_empty_history (tid ts now : String) (w : Option String) (h : List RawStep) :
    (save_execution_results [] tid ts now w).execution_steps = []
    ∧ (save_execution_results [] tid ts now w).success = false
    ∧ ((save_execution_results h tid ts now w).success = true ↔
        h ≠ [] ∧ (processSteps now 0 h).2 = none) := by
  refine ⟨?_, ?_, ?_⟩
  · rw [save_steps_eq]
    rfl
  · rw [save_success_eq]
    rfl
  · rw [save_success_eq]
    rw [Bool.and_eq_true]
    constructor
    · rintro ⟨h1, h2⟩
      refine ⟨?_, Option.isNone_iff_eq_none.mp h2⟩
      intro hnil
      rw [hnil] at h1
      exact Bool.false_ne_true h1
    · rintro ⟨h1, h2⟩
      refine ⟨?_, Option.isNone_iff_eq_none.mpr h2⟩
      cases hh : h.isEmpty
      · rfl
      · exact absurd (List.isEmpty_iff.mp hh) h1

/-- Witness for C3: the amended characterization evaluated at the empty
history and at a concrete one-entry history. -/
theorem C3_empty_history_witness :
    (save_execution_results [] "t" "ts" "now" none).execution_steps = []
    ∧ (save_execution_results histOne "t" "ts" "now" none).success = true :=
  ⟨(C3_empty_history "t" "ts" "now" none histOne).1,
   (C3_empty_history "t" "ts" "now" none histOne).2.2.mpr ⟨by decide, by decide⟩⟩

/-! ## Claim C4 -/

/-- Claim C4 as stated is false on the code at two explicit inputs: a tuple
entry whose element 0 is the (falsy) empty string yields the sentinel `"N/A"`
rather than the stringified element 0 (which would be `""`); and a history
whose single entry raises on inspection yields zero extracted steps rather
than one per entry. -/
theorem C4_counterexample :
    ((save_execution_results tupleFalsy "t" "ts" "now" none).execution_steps.map
        StepInfo.action = ["N/A"]
      ∧ ("N/A" : String) ≠ "")
    ∧ (save_execution_results [RawStep.raisingStep ("boom")] "t" "ts" "now" none).execution_steps.length
        = 0 := by
  decide

/-- Claim C4 as amended: for a history of N entries none of which raises on
inspection, the normalizer emits exactly N step records, position j extracted
from entry j (order preserved); it never raises past its boundary regardless
of write outcome; a tuple entry of length ≥ 2 yields the stringified
element 0 as action and stringified element 1 as outcome only when these are
truthy, the `"N/A"` sentinel otherwise; and an entry none of whose candidate
action/result attribute names carries a truthy value yields the `"N/A"`
sentinels for action and result instead of an exception. -/
theorem C4_normalizer_shape (h : List RawStep) (tid ts now : String) (w : Option String)
    (hnr : ∀ s ∈ h, s.raises = false) :
    (save_execution_results h tid ts now w).execution_steps.length = h.length
    ∧ (∀ j : Nat, ((save_execution_results h tid ts now w).execution_steps[j]?).map Except.ok
        = (h[j]?).map (extractStep now j))
    ∧ (∀ (a b : String) (rest : List String) (i : Nat),
        extractStep now i (RawStep.tupleStep (a :: b :: rest)) =
          Except.ok { step_number := i + 1,
                      action := if pyTruthy a then a else "N/A",
                      result := if pyTruthy b then b else "N/A",
                      timestamp := now })
    ∧ (∀ (fields : List (String × String)) (i : Nat),
        probeAttrs fields action_attrs = none →
        probeAttrs fields result_attrs = none →
        ∃ t, extractStep now i (RawStep.objStep fields) = Except.ok t
            ∧ t.action = "N/A" ∧ t.result = "N/A") := by
  obtain ⟨hp1, hp2, hp3⟩ := processSteps_noRaise now h 0 hnr
  refine ⟨?_, ?_, ?_, ?_⟩
  · rw [save_steps_eq]
    exact hp2
  · intro j
    rw [save_steps_eq]
    have := hp3 j
    rwa [Nat.zero_add] at this
  · intro a b rest i
    rfl
  · intro fields i hpa hpr
    refine ⟨_, rfl, ?_, ?_⟩
    · show (probeAttrs fields action_attrs).getD ("N/A") = "N/A"
      rw [hpa]
      rfl
    · show (probeAttrs fields result_attrs).getD ("N/A") = "N/A"
      rw [hpr]
      rfl

/-- Witness for C4: the amended theorem applied to a concrete two-entry
history (a truthy tuple and an attribute-free object), discharging the
no-raise hypothesis. -/
theorem C4_normalizer_shape_witness :
    (save_execution_results [RawStep.tupleStep ["go", "ok"], RawStep.objStep []]
        "t" "ts" "now" none).execution_steps.length = 2 := by
  have := C4_normalizer_shape [RawStep.tupleStep ["go", "ok"], RawStep.objStep []]
    "t" "ts" "now" none (by decide)
  exact this.1

/-! ## Claim C5 -/

/-- Claim C5 as stated is false on the code: when the middle entry of a
three-entry history raises during extraction, the remaining (third) entry is
not processed — only the one step already extracted is returned (the claim's
"extraction of the remaining entries still happens" would give 3, or at least
2, steps), with the exception's message recorded in `error`. -/
theorem C5_counterexample :
    (save_execution_results histPartial "t" "ts" "now" none).execution_steps.map
        StepInfo.action = ["a1"]
    ∧ (save_execution_results histPartial "t" "ts" "now" none).execution_steps.length = 1
    ∧ ¬ (save_execution_results histPartial "t" "ts" "now" none).execution_steps.length = 3
    ∧ (save_execution_results histPartial "t" "ts" "now" none).error = some ("boom") := by
  decide

/-- Claim C5 as amended: an extraction error on one entry aborts processing
of the remaining entries, but the overall normalization still returns — the
steps already extracted (one per preceding entry, extracted in order) are
returned, with the raising entry's message recorded in `error` when the write
succeeds; a failed write of the output file is reported via `error` (the
write-failure message) while the function still returns everything that was
extracted. -/
theorem C5_partial_results (pre post : List RawStep) (m tid ts now e : String)
    (hnr : ∀ s ∈ pre, s.raises = false) :
    ((save_execution_results (pre ++ RawStep.raisingStep m :: post) tid ts now none).execution_steps.length
        = pre.length
      ∧ (∀ j : Nat,
          (((save_execution_results (pre ++ RawStep.raisingStep m :: post) tid ts now none).execution_steps)[j]?).map
              Except.ok
            = (pre[j]?).map (extractStep now j))
      ∧ (save_execution_results (pre ++ RawStep.raisingStep m :: post) tid ts now none).error
          = some m
      ∧ (save_execution_results (pre ++ RawStep.raisingStep m :: post) tid ts now none).success
          = false)
    ∧ ((save_execution_results (pre ++ RawStep.raisingStep m :: post) tid ts now (some e)).execution_steps.length
        = pre.length
      ∧ (save_execution_results (pre ++ RawStep.raisingStep m :: post) tid ts now (some e)).error
          = some ("Error saving results: " ++ e)) := by
  obtain ⟨hp1, hp2, hp3⟩ := processSteps_raising now m pre post 0 hnr
  refine ⟨⟨?_, ?_, ?_, ?_⟩, ?_, ?_⟩
  · rw [save_steps_eq]
    exact hp2
  · intro j
    rw [save_steps_eq]
    have := hp3 j
    rwa [Nat.zero_add] at this
  · rw [save_error_write_ok]
    exact hp1
  · rw [save_success_eq, hp1]
    simp
  · rw [save_steps_eq]
    exact hp2
  · exact save_error_write_fail _ tid ts now e

/-- Witness for C5: the amended theorem applied to a concrete history with
one good entry followed by a raising entry. -/
theorem C5_partial_results_witness :
    (save_execution_results
        ([RawStep.objStep [("action", "a1")]] ++ RawStep.raisingStep ("boom") :: [])
        "t" "ts" "now" none).execution_steps.length = 1
    ∧ (save_execution_results
        ([RawStep.objStep [("action", "a1")]] ++ RawStep.raisingStep ("boom") :: [])
        "t" "ts" "now" none).error = some ("boom") := by
  have := C5_partial_results [RawStep.objStep [("action", "a1")]] [] "boom"
    "t" "ts" "now" "e" (by decide)
  exact ⟨this.1.1, this.1.2.2.1⟩

/-! ## Claim C2 -/

/-- An orchestration environment where the automation run itself raises. -/
def envRunFail : ExecEnv :=
  { createErr := none, runErr := some ("boom"), history := [], writeErr := none,
    closeErr := none, initialShot := none, finalShot := none,
    tid := "t", ts := "ts", now := "now" }

/-- An orchestration environment where everything succeeds. -/
def envOk : ExecEnv :=
  { createErr := none, runErr := none, history := [RawStep.objStep [("action", "go")]],
    writeErr := none, closeErr := none, initialShot := none, finalShot := none,
    tid := "t", ts := "ts", now := "now" }

/-- Claim C2 as stated is false on the code: when the automation invocation
raises after the browser agent was created, the task does transition to
terminal `failed` with the exception's message as `error`, but
`browser.close()` is NOT attempted — the `except` block of `execute_task`
never closes the browser (the close at api_server.py line 581 lives on the
success path only), so the session is not released on the failure path. -/
theorem C2_counterexample :
    (execute_task envRunFail).statusWrites = [Status.running, Status.failed]
    ∧ (execute_task envRunFail).error = some ("boom")
    ∧ (execute_task envRunFail).closeAttempts = 0 := by
  decide

/-- Claim C2 as amended: an exception raised during automation after agent
creation yields a terminal `failed` transition carrying the exception's
message as `error`, but the automation session close is NOT attempted on that
failure path (zero close attempts); the close is attempted exactly once on
the path where the automation run returned, and when it also succeeds the
task completes with no stored error. -/
theorem C2_failure_path (env : ExecEnv) (e : String) :
    (env.createErr = none → env.runErr = some e →
        (execute_task env).statusWrites = [Status.running, Status.failed]
        ∧ (execute_task env).error = some e
        ∧ (execute_task env).closeAttempts = 0)
    ∧ (env.createErr = none → env.runErr = none →
        (execute_task env).closeAttempts = 1)
    ∧ (env.createErr = none → env.runErr = none → env.closeErr = none →
        (execute_task env).statusWrites = [Status.running, Status.completed]
        ∧ (execute_task env).error = none) := by
  rcases env with ⟨ce, re, h, we, cle, ish, fsh, tid, ts, now⟩
  refine ⟨?_, ?_, ?_⟩
  · intro hc hr
    subst hc
    subst hr
    exact ⟨rfl, rfl, rfl⟩
  · intro hc hr
    subst hc
    subst hr
    cases cle <;> rfl
  · intro hc hr hcl
    subst hc
    subst hr
    subst hcl
    exact ⟨rfl, rfl⟩

/-- Witness for C2: the amended theorem at a concrete failing run and at a
concrete fully successful run. -/
theorem C2_failure_path_witness :
    ((execute_task envRunFail).error = some ("boom")
      ∧ (execute_task envRunFail).closeAttempts = 0)
    ∧ (execute_task envOk).closeAttempts = 1 :=
  ⟨⟨((C2_failure_path envRunFail "boom").1 rfl rfl).2.1,
    ((C2_failure_path envRunFail "boom").1 rfl rfl).2.2⟩,
   (C2_failure_path envOk "x").2.1 rfl rfl⟩

/-! ## Claim C8 -/

/-- Claim C8: every task's status history is exactly `pending`, then
`running`, then one terminal status — the record is created `pending`
(api_server.py line 874), the orchestration run writes `running`
unconditionally before anything else (line 497) and then exactly one of
`completed`/`failed`; the trace is strictly monotone in the lifecycle order,
so there are no backward transitions and `running` is never skipped. -/
theorem C8_status_lifecycle (env : ExecEnv) :
    (taskStatusTrace env = [Status.pending, Status.running, Status.completed]
      ∨ taskStatusTrace env = [Status.pending, Status.running, Status.failed])
    ∧ List.Chain' (fun a b => statusRank a < statusRank b) (taskStatusTrace env)
    ∧ (taskStatusTrace env).head? = some Status.pending
    ∧ ∃ t, (taskStatusTrace env).getLast? = some t ∧ t.isTerminal = true := by
  rcases env with ⟨ce, re, h, we, cle, ish, fsh, tid, ts, now⟩
  cases ce with
  | some e =>
    refine ⟨Or.inr rfl, ?_, rfl, Status.failed, rfl, rfl⟩
    show List.Chain' _ [Status.pending, Status.running, Status.failed]
    norm_num [List.chain'_cons, statusRank]
  | none =>
    cases re with
    | some e =>
      refine ⟨Or.inr rfl, ?_, rfl, Status.failed, rfl, rfl⟩
      show List.Chain' _ [Status.pending, Status.running, Status.failed]
      norm_num [List.chain'_cons, statusRank]
    | none =>
      cases cle with
      | some e =>
        refine ⟨Or.inr rfl, ?_, rfl, Status.failed, rfl, rfl⟩
        show List.Chain' _ [Status.pending, Status.running, Status.failed]
        norm_num [List.chain'_cons, statusRank]
      | none =>
        refine ⟨Or.inl rfl, ?_, rfl, Status.completed, rfl, rfl⟩
        show List.Chain' _ [Status.pending, Status.running, Status.completed]
        norm_num [List.chain'_cons, statusRank]

/-! ## Claim C6 -/

/-- Claim C6: `target_url_accessed` is true exactly when some step's action
text contains the target URL as a substring or contains a case-insensitive
`"navigate"` token (api_server.py lines 754-759). -/
theorem C6_target_url_reached_iff (er : ResultsAnalyzer.ExecutionResults)
    (oi : ResultsAnalyzer.OriginalInstructions) :
    (ResultsAnalyzer.analyze_results er oi).target_url_accessed = true ↔
      ∃ s ∈ er.execution_steps,
        strContains s.action oi.target_url = true
        ∨ strContains (pyLower s.action) "navigate" = true := by
  have hproj : (ResultsAnalyzer.analyze_results er oi).target_url_accessed
      = ResultsAnalyzer.urlAccessedCalc er.execution_steps oi.target_url := rfl
  rw [hproj]
  unfold ResultsAnalyzer.urlAccessedCalc
  rw [List.any_eq_true]
  constructor
  · rintro ⟨s, hs, hm⟩
    simp only [ResultsAnalyzer.stepMatches, Bool.or_eq_true] at hm
    exact ⟨s, hs, hm.elim Or.inr Or.inl⟩
  · rintro ⟨s, hs, hm⟩
    refine ⟨s, hs, ?_⟩
    simp only [ResultsAnalyzer.stepMatches, Bool.or_eq_true]
    exact hm.elim Or.inr Or.inl

/-- A step whose action text mentions navigation and the target URL. -/
def stepNav : StepInfo :=
  { step_number := 1, action := "navigate to http://x.test", result := "ok",
    timestamp := "t0" }

/-- Execution results with one navigation step and no screenshots. -/
def erNav : ResultsAnalyzer.ExecutionResults :=
  { success := true, execution_steps := [stepNav], screenshots := [],
    error := none, full_conversation := [] }

/-- Instructions targeting `http://x.test` with no screenshot requirements. -/
def oiX : ResultsAnalyzer.OriginalInstructions :=
  { target_url := "http://x.test", task_description := "open the site",
    screenshot_instructions := [] }

/-- Witness for C6: the characterization instantiated at a step whose action
contains the target URL. -/
theorem C6_target_url_reached_iff_witness :
    (ResultsAnalyzer.analyze_results erNav oiX).target_url_accessed = true :=
  (C6_target_url_reached_iff erNav oiX).mpr ⟨stepNav, by decide, Or.inl (by decide)⟩

/-! ## Claim C7 -/

/-- Modelled from the spec: claim C7's recommendation rule set as literally
stated, where rule 4 appends the positive confirmation followed
unconditionally by the captured-count summary. -/
def claimedRecommendationsC7 (success url_accessed : Bool) (target_url : String)
    (required captured : Nat) (requiredNonempty : Bool) : List String :=
  (if !success then ["Task execution failed - check error logs"] else [])
  ++ (if !url_accessed then
        ["Target URL " ++ target_url ++ " may not have been properly accessed"] else [])
  ++ (if requiredNonempty && decide (captured < required) then
        ["Not all required screenshots were captured"] else [])
  ++ (if success && url_accessed then
        ["Task appears to have completed successfully",
         "Successfully captured " ++ toString captured ++ " screenshots"] else [])

/-- Claim C7 as stated is false on the code: for a successful execution that
reached the target URL but captured zero screenshots, the code emits only the
positive confirmation (the captured-count summary at api_server.py line 784
is guarded by `if captured_screenshots:`), while the claimed rule set also
emits the captured-count summary. -/
theorem C7_counterexample :
    (ResultsAnalyzer.analyze_results erNav oiX).recommendations
      = ["Task appears to have completed successfully"]
    ∧ claimedRecommendationsC7 true true "http://x.test" 0 0 false
      = ["Task appears to have completed successfully",
         "Successfully captured 0 screenshots"]
    ∧ ¬ (ResultsAnalyzer.analyze_results erNav oiX).recommendations
        = claimedRecommendationsC7 true true "http://x.test" 0 0 false := by
  decide

/-- The recommendation rules as amended for C7: same fixed order, but the
captured-count summary after the positive confirmation is emitted only when
at least one screenshot was captured. -/
def specRecommendationsC7 (success url_accessed meets : Bool) (target_url : String)
    (captured : Nat) : List String :=
  (if success = false then ["Task execution failed - check error logs"] else [])
  ++ (if url_accessed = false then
        ["Target URL " ++ target_url ++ " may not have been properly accessed"] else [])
  ++ (if meets = false then ["Not all required screenshots were captured"] else [])
  ++ (if success = true ∧ url_accessed = true then
        ["Task appears to have completed successfully"]
        ++ (if 0 < captured then
              ["Successfully captured " ++ toString captured ++ " screenshots"] else [])
      else [])

/-- Rule segments 1 and 2: boolean negation versus `= false` conditions. -/
theorem rec_seg1_eq (b : Bool) (msg : List String) :
    (if !b then msg else []) = (if b = false then msg else []) := by
  cases b <;> simp

/-- Rule segment 3: the source's `required_screenshots and captured <
required` condition coincides with the computed `meets_requirements` flag
being false. -/
theorem rec_seg3_eq (required captured : Nat) (rne : Bool) (msg : List String) :
    (if rne && decide (captured < required) then msg else [])
      = (if (if rne then decide (captured ≥ required) else true) = false then msg else []) := by
  cases rne
  · simp
  · by_cases hlt : captured < required
    · simp [hlt, Nat.not_le.mpr hlt]
    · simp [hlt, Nat.not_lt.mp hlt]

/-- Rule segment 4: the source's `if captured_screenshots:` guard coincides
with a positive captured count. -/
theorem rec_seg4_eq (success u : Bool) (l : List String) (msg1 msg2 : List String) :
    (if success && u then msg1 ++ (if !l.isEmpty then msg2 else []) else [])
      = (if success = true ∧ u = true then msg1 ++ (if 0 < l.length then msg2 else []) else []) := by
  cases success <;> cases u <;> cases l <;> simp

/-- Claim C7 as amended: the recommendations are generated in the fixed order
(1) check-error-logs when `success` is false, (2) verify-target-URL when
`target_url_reached` is false, (3) missing-screenshots when the screenshot
requirement is unmet, (4) when both `success` and `target_url_reached` hold,
a positive confirmation followed — only when at least one screenshot was
captured — by a captured-count summary. -/
theorem C7_recommendations_order (er : ResultsAnalyzer.ExecutionResults)
    (oi : ResultsAnalyzer.OriginalInstructions) :
    (ResultsAnalyzer.analyze_results er oi).recommendations
      = specRecommendationsC7 er.success
          ((ResultsAnalyzer.analyze_results er oi).target_url_accessed)
          ((ResultsAnalyzer.analyze_results er oi).screenshot_compliance.meets_requirements)
          oi.target_url er.screenshots.length := by
  have hrec : (ResultsAnalyzer.analyze_results er oi).recommendations
      = ResultsAnalyzer.recommendationsCalc er.success
          (ResultsAnalyzer.urlAccessedCalc er.execution_steps oi.target_url) oi.target_url
          oi.screenshot_instructions.length er.screenshots.length
          (!oi.screenshot_instructions.isEmpty) (!er.screenshots.isEmpty) := rfl
  have hurl : (ResultsAnalyzer.analyze_results er oi).target_url_accessed
      = ResultsAnalyzer.urlAccessedCalc er.execution_steps oi.target_url := rfl
  have hmeets : (ResultsAnalyzer.analyze_results er oi).screenshot_compliance.meets_requirements
      = (if !oi.screenshot_instructions.isEmpty
          then decide (er.screenshots.length ≥ oi.screenshot_instructions.length)
          else true) := rfl
  rw [hrec, hurl, hmeets]
  unfold ResultsAnalyzer.recommendationsCalc specRecommendationsC7
  rw [rec_seg1_eq, rec_seg1_eq, rec_seg3_eq, rec_seg4_eq]

/-! ## Claim C9 -/

/-- Claim C9: for a known task id whose status is `pending` or `running`,
both the results handler and the analysis handler reject with a 400
invalid-state error instead of returning a result, and the results handler
succeeds exactly when the status is `completed` or `failed`. -/
theorem C9_not_ready (ti : Api.TaskInfo) (keyOk : Bool) (llm : Except String String) :
    ((ti.status = Status.pending ∨ ti.status = Status.running) →
        (∃ d, Api.get_task_results (some ti) = Api.Resp.err 400 d)
        ∧ (∃ d, Api.analyze_results_endpoint (some ti) keyOk llm = Api.Resp.err 400 d))
    ∧ ((Api.get_task_results (some ti)).isOk = true
        ↔ (ti.status = Status.completed ∨ ti.status = Status.failed)) := by
  constructor
  · intro hst
    have hnc : ¬ (ti.status = Status.completed ∨ ti.status = Status.failed) := by
      rcases hst with h | h <;> rw [h] <;> rintro (hc | hc) <;> exact Status.noConfusion hc
    have hne : ¬ ti.status = Status.completed := fun hc => hnc (Or.inl hc)
    refine ⟨⟨"Task is still " ++ Api.statusStr ti.status, ?_⟩,
      ⟨"Task must be completed before analysis", ?_⟩⟩
    · simp only [Api.get_task_results]
      rw [if_neg hnc]
    · simp only [Api.analyze_results_endpoint]
      rw [if_neg hne]
  · simp only [Api.get_task_results]
    by_cases hc : ti.status = Status.completed ∨ ti.status = Status.failed
    · rw [if_pos hc]
      simp [Api.Resp.isOk, hc]
    · rw [if_neg hc]
      simp [Api.Resp.isOk, hc]

/-- A freshly created task record, still pending. -/
def tiPending : Api.TaskInfo :=
  { status := Status.pending, results := none,
    instructions := { target_url := "", task_description := "",
                      screenshot_instructions := [] } }

/-- Witness for C9: both handlers reject a concrete pending task with a 400
invalid-state error. -/
theorem C9_not_ready_witness :
    (∃ d, Api.get_task_results (some tiPending) = Api.Resp.err 400 d)
    ∧ (∃ d, Api.analyze_results_endpoint (some tiPending) true (Except.ok ("r"))
        = Api.Resp.err 400 d) :=
  (C9_not_ready tiPending true (Except.ok ("r"))).1 (Or.inl rfl)

/-! ## Claim C10 -/

/-- Claim C10 (implicit edge case): with an empty (or absent, defaulting to
empty) target URL and at least one step, `target_url_accessed` is reported
true regardless of the steps' action text, because the empty string is a
substring of every action string. -/
theorem C10_empty_target (er : ResultsAnalyzer.ExecutionResults)
    (oi : ResultsAnalyzer.OriginalInstructions)
    (hsteps : er.execution_steps ≠ []) (hurl : oi.target_url = "") :
    (ResultsAnalyzer.analyze_results er oi).target_url_accessed = true := by
  have hproj : (ResultsAnalyzer.analyze_results er oi).target_url_accessed
      = ResultsAnalyzer.urlAccessedCalc er.execution_steps oi.target_url := rfl
  rw [hproj]
  unfold ResultsAnalyzer.urlAccessedCalc
  rw [List.any_eq_true]
  rcases hl : er.execution_steps with _ | ⟨s, rest⟩
  · exact absurd hl hsteps
  · refine ⟨s, List.mem_cons_self s rest, ?_⟩
    simp [ResultsAnalyzer.stepMatches, hurl, strContains_empty_needle]

/-- Execution results with a single step whose action mentions neither
navigation nor any URL. -/
def erOne : ResultsAnalyzer.ExecutionResults :=
  { success := true,
    execution_steps := [{ step_number := 1, action := "click the button",
                          result := "ok", timestamp := "t0" }],
    screenshots := [], error := none, full_conversation := [] }

/-- Instructions whose target URL is the empty string. -/
def oiNoUrl : ResultsAnalyzer.OriginalInstructions :=
  { target_url := "", task_description := "press things",
    screenshot_instructions := [] }

/-- Witness for C10: a step action without any navigation text still counts
as having reached the (empty) target URL. -/
theorem C10_empty_target_witness :
    (ResultsAnalyzer.analyze_results erOne oiNoUrl).target_url_accessed = true :=
  C10_empty_target erOne oiNoUrl (by decide) rfl
